import Mathlib

/-!
Shallow embedding of the retry engine in `src/packages/query-core/retryer.ts`
(together with the pause gate in `focusManager.ts` and the type declarations in
`types.ts`).

The TypeScript engine is a single-threaded, promise-based state machine.  We
embed it as an explicit state machine: `EngineState` holds the closure-captured
mutable fields of `CreateRetryer` (`isRetryCancelled`, `failureCount`,
`isResolved`, the pause continuation, the settled outcome of the promise)
together with the external environment the module-level gates read
(`focusManager.isFocused()` and `onlineManager.isOnline()` become the booleans
`focused` and `online`).  The engine's single cooperative thread is suspended at
one of the code's await points, recorded in `Control`:

* `runningFn`     — `config.fn()` was invoked and its promise is pending;
* `sleeping e d`  — the retry loop is inside `sleep(delay)` after a failure
                    with error `e` and computed delay `d`;
* `pausedStart`   — the startup `pause().then(run)` is waiting (`continueFn`
                    is set);
* `pausedRetry e` — the in-loop `pause()` after a failed attempt with error `e`
                    is waiting (`continueFn` is set);
* `idle`          — no internal continuation is pending.

External stimuli are `Event`s: completion of the in-flight unit of work
(`fnSucceed` / `fnFail`), completion of the pending `sleep` (`sleepDone`), the
four control operations returned by `CreateRetryer`, and changes of the two
environment gates.  An event that does not match the pending suspension is a
no-op, exactly as the corresponding promise callback could not fire in JS.

Observable callback invocations (`config.fn`, `onSuccess`, `onError`, `onFail`,
`onPause`, `onContinue`, `abort`) are recorded in order in the `log` field.
-/

/-- `NetworkMode` from `types.ts`. -/
inductive NetworkMode
  | online
  | always
  | offlineFirst
deriving DecidableEq, Repr

/-- `CancelOptions` from `types.ts`: both fields optional. -/
structure CancelOptions where
  revert : Option Bool
  silent : Option Bool
deriving DecidableEq, Repr

/-- `RetryValue<TError>`: boolean, number, or `ShouldRetryFunction`. -/
inductive RetryValue
  | bool (b : Bool)
  | num (n : Nat)
  | fn (f : Nat → Nat → Bool)

/-- `RetryDelayValue<TError>`: number or `RetryDelayFunction`. -/
inductive RetryDelayValue
  | num (n : Nat)
  | fn (f : Nat → Nat → Nat)

/-- The policy-relevant part of `RetryerConfig` (`fn` and the lifecycle
callbacks are modelled by the event alphabet and the call log; `undefined`
fields are `none`). Work values and work errors are modelled as `Nat`. -/
structure RetryerConfig where
  retry : Option RetryValue
  retryDelay : Option RetryDelayValue
  networkMode : Option NetworkMode

/-- An error carried by the promise: either the unit of work's own error or a
`CancelledError` with its `revert` / `silent` fields. -/
inductive EngineError
  | work (e : Nat)
  | cancelled (revert : Option Bool) (silent : Option Bool)
deriving DecidableEq, Repr

/-- The settled outcome of the result promise. -/
inductive Outcome
  | success (v : Nat)
  | failure (e : EngineError)
deriving DecidableEq, Repr

/-- Where the engine's single cooperative thread is suspended. -/
inductive Control
  | runningFn
  | sleeping (error : Nat) (delay : Nat)
  | pausedStart
  | pausedRetry (error : Nat)
  | idle
deriving DecidableEq, Repr

/-- One observable callback invocation. -/
inductive CEvent
  | fnCall
  | onSuccessC (v : Nat)
  | onErrorC (e : EngineError)
  | onFailC (n : Nat) (e : Nat)
  | onPauseC
  | onContinueC
  | abortC
deriving DecidableEq, Repr

/-- The closure state of one `CreateRetryer` instance plus the environment
gates it reads. -/
structure EngineState where
  config : RetryerConfig
  focused : Bool
  online : Bool
  isRetryCancelled : Bool
  failureCount : Nat
  isResolved : Bool
  control : Control
  settled : Option Outcome
  log : List CEvent

/-- External stimuli driving the engine. -/
inductive Event
  | fnSucceed (v : Nat)
  | fnFail (e : Nat)
  | sleepDone
  | continueCall
  | cancel (opts : Option CancelOptions)
  | cancelRetry
  | continueRetry
  | setFocused (b : Bool)
  | setOnline (b : Bool)

/-- `defaultRetryDelay`: `Math.min(1000 * 2 ** failureCount, 30000)`. -/
def defaultRetryDelay (failureCount : Nat) : Nat :=
  min (1000 * 2 ^ failureCount) 30000

/-- `canFetch`: `(networkMode ?? "online") === "online" ?
onlineManager.isOnline() : true`. -/
def canFetch (networkMode : Option NetworkMode) (isOnline : Bool) : Bool :=
  if networkMode.getD .online = .online then isOnline else true

/-- `shouldPause`: `!focusManager.isFocused() || (config.networkMode ===
"always" && !onlineManager.isOnline())`. -/
def shouldPause (networkMode : Option NetworkMode)
    (isFocused isOnline : Bool) : Bool :=
  !isFocused || (decide (networkMode = some .always) && !isOnline)

/-- `shouldPause` read on the current state. -/
def EngineState.shouldPauseNow (s : EngineState) : Bool :=
  shouldPause s.config.networkMode s.focused s.online

/-- `new CancelledError(options)`: `this.revert = options?.revert;
this.silent = options?.silent`. -/
def cancelledOf (opts : Option CancelOptions) : EngineError :=
  .cancelled (opts.bind CancelOptions.revert) (opts.bind CancelOptions.silent)

/-- When `resolve` / `reject` invoke `continueFn?.()` with `isResolved` freshly
set, a pending pause closes: its follow-ups (`onContinue`, `run`, the inner
`reject`) are all guarded by `isResolved` and do nothing, so the paused thread
just terminates. -/
def closeOnSettle : Control → Control
  | .pausedStart => .idle
  | .pausedRetry _ => .idle
  | c => c

/-- `resolve(value)`: settlement gate for success. -/
def resolveM (s : EngineState) (v : Nat) : EngineState :=
  if s.isResolved then s
  else
    { s with
      isResolved := true
      log := s.log ++ [.onSuccessC v]
      control := closeOnSettle s.control
      settled := some (.success v) }

/-- `reject(value)`: settlement gate for failure. -/
def rejectM (s : EngineState) (e : EngineError) : EngineState :=
  if s.isResolved then s
  else
    { s with
      isResolved := true
      log := s.log ++ [.onErrorC e]
      control := closeOnSettle s.control
      settled := some (.failure e) }

/-- `run()`: if resolved, do nothing (the thread ends); otherwise invoke
`config.fn()` and suspend on its promise. -/
def runM (s : EngineState) : EngineState :=
  if s.isResolved then { s with control := .idle }
  else { s with control := .runningFn, log := s.log ++ [.fnCall] }

/-- Closing the startup pause window (`pause().then(run)`): clear the
continuation, fire `onContinue` when unresolved, then `run()`. -/
def closePauseStart (s : EngineState) : EngineState :=
  if s.isResolved then { s with control := .idle }
  else runM { s with log := s.log ++ [.onContinueC], control := .idle }

/-- Closing the in-loop pause window: clear the continuation, fire
`onContinue` when unresolved, then re-check `isRetryCancelled` and either
`reject(error)` or `run()`. -/
def closePauseRetry (s : EngineState) (error : Nat) : EngineState :=
  if s.isResolved then { s with control := .idle }
  else
    let s1 : EngineState := { s with log := s.log ++ [.onContinueC] }
    if s1.isRetryCancelled then rejectM s1 (.work error)
    else runM s1

/-- The `.catch` handler of the retry loop: decide on retry for the pending
failure `e`. -/
def onFnFail (s : EngineState) (e : Nat) : EngineState :=
  if s.isResolved then { s with control := .idle }
  else
    let retry := s.config.retry.getD (.num 3)
    let retryDelay := s.config.retryDelay.getD
      (.fn (fun failureCount _ => defaultRetryDelay failureCount))
    let delay : Nat :=
      match retryDelay with
      | .fn f => f s.failureCount e
      | .num n => n
    let shouldRetry : Bool :=
      match retry with
      | .bool b => b
      | .num n => decide (s.failureCount < n)
      | .fn f => f s.failureCount e
    if s.isRetryCancelled || !shouldRetry then
      { rejectM s (.work e) with control := .idle }
    else
      { s with
        failureCount := s.failureCount + 1
        log := s.log ++ [.onFailC (s.failureCount + 1) e]
        control := .sleeping e delay }

/-- Completion of `sleep(delay)`: re-check `shouldPause()`, possibly enter the
pause cycle (the continuation is stored, no callback fires), otherwise re-check
`isRetryCancelled` and either `reject(error)` or `run()`. -/
def onSleepDone (s : EngineState) (error : Nat) : EngineState :=
  if s.shouldPauseNow then { s with control := .pausedRetry error }
  else if s.isRetryCancelled then { rejectM s (.work error) with control := .idle }
  else runM s

/-- The external `continue()` operation: invoke `continueFn` if present.  The
continuation closes the window when `isResolved || !shouldPause()`; otherwise
it fires `config.onPause?.()` and the window stays open. -/
def onContinueCall (s : EngineState) : EngineState :=
  match s.control with
  | .pausedStart =>
    if s.isResolved || !s.shouldPauseNow then closePauseStart s
    else { s with log := s.log ++ [.onPauseC] }
  | .pausedRetry e =>
    if s.isResolved || !s.shouldPauseNow then closePauseRetry s e
    else { s with log := s.log ++ [.onPauseC] }
  | _ => s

/-- The external `cancel(cancelOptions)` operation: when unresolved,
`reject(new CancelledError(cancelOptions))` then `config.abort?.()`. -/
def onCancel (s : EngineState) (opts : Option CancelOptions) : EngineState :=
  if s.isResolved then s
  else
    let s1 := rejectM s (cancelledOf opts)
    { s1 with log := s1.log ++ [.abortC] }

/-- One external event applied to the engine. -/
def step (s : EngineState) : Event → EngineState
  | .fnSucceed v =>
    match s.control with
    | .runningFn => resolveM { s with control := .idle } v
    | _ => s
  | .fnFail e =>
    match s.control with
    | .runningFn => onFnFail s e
    | _ => s
  | .sleepDone =>
    match s.control with
    | .sleeping e _ => onSleepDone s e
    | _ => s
  | .continueCall => onContinueCall s
  | .cancel opts => onCancel s opts
  | .cancelRetry => { s with isRetryCancelled := true }
  | .continueRetry => { s with isRetryCancelled := false }
  | .setFocused b => { s with focused := b }
  | .setOnline b => { s with online := b }

/-- `CreateRetryer`: build the initial closure state, then either start the
loop at once (`run()`) or enter the startup pause (`pause().then(run)`),
according to `canFetch(config.networkMode)`. -/
def initState (config : RetryerConfig) (focused online : Bool) : EngineState :=
  let s0 : EngineState :=
    { config := config
      focused := focused
      online := online
      isRetryCancelled := false
      failureCount := 0
      isResolved := false
      control := .idle
      settled := none
      log := [] }
  if canFetch config.networkMode online then runM s0
  else { s0 with control := .pausedStart }

/-- Run the engine from construction through a sequence of events. -/
def runTrace (config : RetryerConfig) (focused online : Bool)
    (evs : List Event) : EngineState :=
  evs.foldl step (initState config focused online)

/-- Number of invocations of the unit of work recorded so far. -/
def EngineState.fnCalls (s : EngineState) : Nat :=
  s.log.countP (fun c => match c with | .fnCall => true | _ => false)

/-- The `onFail` invocations recorded so far, in order, as
`(failureCount, error)` pairs. -/
def EngineState.onFailEvents (s : EngineState) : List (Nat × Nat) :=
  s.log.filterMap (fun c => match c with | .onFailC n e => some (n, e) | _ => none)

/-- Number of `onPause` invocations recorded so far. -/
def EngineState.onPauseCalls (s : EngineState) : Nat :=
  s.log.countP (fun c => match c with | .onPauseC => true | _ => false)

/-- Number of `abort` invocations recorded so far. -/
def EngineState.abortCalls (s : EngineState) : Nat :=
  s.log.countP (fun c => match c with | .abortC => true | _ => false)

/-- Whether a pause continuation (`continueFn`) is currently stored. -/
def EngineState.hasContinueFn (s : EngineState) : Bool :=
  match s.control with
  | .pausedStart => true
  | .pausedRetry _ => true
  | _ => false

/-! ### Settlement-gate frame lemmas -/

/-- Once `isResolved` is true, a single further event changes neither the
resolution flag, nor the settled outcome, nor the callback log (every
settlement and every callback site is guarded by `isResolved`). -/
theorem step_resolved_frame (s : EngineState) (e : Event)
    (h : s.isResolved = true) :
    (step s e).isResolved = true ∧ (step s e).settled = s.settled ∧
    (step s e).log = s.log := by
  cases e <;>
    (try cases hc : s.control) <;>
    (simp_all [step, onFnFail, onSleepDone, onContinueCall, onCancel, resolveM,
      rejectM, runM, closePauseStart, closePauseRetry, closeOnSettle];
     try (split_ifs <;> simp_all))

/-- Trace version of `step_resolved_frame`: once resolved, any further event
sequence preserves resolution, outcome and log. -/
theorem steps_resolved_frame (evs : List Event) (s : EngineState)
    (h : s.isResolved = true) :
    (evs.foldl step s).isResolved = true ∧
    (evs.foldl step s).settled = s.settled ∧
    (evs.foldl step s).log = s.log := by
  induction evs generalizing s with
  | nil => exact ⟨h, rfl, rfl⟩
  | cons e tl ih =>
    obtain ⟨h1, h2, h3⟩ := step_resolved_frame s e h
    obtain ⟨g1, g2, g3⟩ := ih (step s e) h1
    exact ⟨g1, g2.trans h2, g3.trans h3⟩

/-- A single step never records an outcome without setting `isResolved`. -/
theorem step_settled_inv (s : EngineState) (e : Event)
    (hinv : s.isResolved = false → s.settled = none)
    (h : (step s e).isResolved = false) :
    (step s e).settled = none := by
  by_cases hs : s.isResolved = true
  · obtain ⟨h1, _, _⟩ := step_resolved_frame s e hs
    rw [h1] at h
    exact absurd h (by simp)
  · replace hs : s.isResolved = false := by simpa using hs
    cases e <;>
      (try cases hc : s.control) <;>
      (simp_all [step, onFnFail, onSleepDone, onContinueCall, onCancel,
        resolveM, rejectM, runM, closePauseStart, closePauseRetry,
        closeOnSettle];
       try (split_ifs at h ⊢ <;> simp_all))

/-- Trace version of `step_settled_inv`. -/
theorem steps_settled_inv (evs : List Event) (s : EngineState)
    (hinv : s.isResolved = false → s.settled = none)
    (h : (evs.foldl step s).isResolved = false) :
    (evs.foldl step s).settled = none := by
  induction evs generalizing s with
  | nil => exact hinv h
  | cons e tl ih =>
    exact ih (step s e) (step_settled_inv s e hinv) h

/-- C1: along any run the resolution flag is monotone. Once it is true, any
further sequence of internal completions and external control calls leaves the
settled outcome (and the whole callback log) unchanged; and while it is still
false the promise has not settled at all — so the promise settles at most
once. -/
theorem promise_settles_at_most_once (config : RetryerConfig)
    (focused online : Bool) (evs evs' : List Event) :
    ((runTrace config focused online evs).isResolved = true →
      (runTrace config focused online (evs ++ evs')).isResolved = true ∧
      (runTrace config focused online (evs ++ evs')).settled =
        (runTrace config focused online evs).settled ∧
      (runTrace config focused online (evs ++ evs')).log =
        (runTrace config focused online evs).log) ∧
    ((runTrace config focused online evs).isResolved = false →
      (runTrace config focused online evs).settled = none) := by
  constructor
  · intro h
    have key := steps_resolved_frame evs' (runTrace config focused online evs) h
    simpa [runTrace, List.foldl_append] using key
  · intro h
    refine steps_settled_inv evs (initState config focused online) ?_ h
    intro _
    unfold initState
    split <;> simp [runM, initState]

/-- Witness for C1 at a concrete run: settling by success, then a late
`cancel` leaves the outcome unchanged; before any completion nothing has
settled. -/
theorem promise_settles_at_most_once_witness :
    (runTrace ⟨none, none, none⟩ true true
        ([Event.fnSucceed 5] ++ [Event.cancel none])).settled =
      (runTrace ⟨none, none, none⟩ true true [Event.fnSucceed 5]).settled ∧
    (runTrace ⟨none, none, none⟩ true true []).settled = none :=
  ⟨((promise_settles_at_most_once ⟨none, none, none⟩ true true
      [Event.fnSucceed 5] [Event.cancel none]).1 rfl).2.1,
   (promise_settles_at_most_once ⟨none, none, none⟩ true true
      [] []).2 rfl⟩


/-- C2: with `retry` left undefined (defaulting to 3) and a unit of work that
fails on every invocation, exactly 4 invocations occur, `onFail` fires with
`failureCount` 1, 2, 3 in that order carrying each attempt's error, and the
promise rejects with the error of the 4th invocation — and no later event can
change any of this. -/
theorem default_retry_three_attempts (e1 e2 e3 e4 : Nat) (evs : List Event) :
    (runTrace ⟨none, none, none⟩ true true
        ([.fnFail e1, .sleepDone, .fnFail e2, .sleepDone, .fnFail e3,
          .sleepDone, .fnFail e4] ++ evs)).fnCalls = 4 ∧
    (runTrace ⟨none, none, none⟩ true true
        ([.fnFail e1, .sleepDone, .fnFail e2, .sleepDone, .fnFail e3,
          .sleepDone, .fnFail e4] ++ evs)).onFailEvents =
      [(1, e1), (2, e2), (3, e3)] ∧
    (runTrace ⟨none, none, none⟩ true true
        ([.fnFail e1, .sleepDone, .fnFail e2, .sleepDone, .fnFail e3,
          .sleepDone, .fnFail e4] ++ evs)).settled =
      some (.failure (.work e4)) := by
  have hpre :
      runTrace ⟨none, none, none⟩ true true
        [.fnFail e1, .sleepDone, .fnFail e2, .sleepDone, .fnFail e3,
          .sleepDone, .fnFail e4] =
      { config := ⟨none, none, none⟩, focused := true, online := true,
        isRetryCancelled := false, failureCount := 3, isResolved := true,
        control := .idle, settled := some (.failure (.work e4)),
        log := [.fnCall, .onFailC 1 e1, .fnCall, .onFailC 2 e2, .fnCall,
          .onFailC 3 e3, .fnCall, .onErrorC (.work e4)] } := by
    simp [runTrace, initState, canFetch, List.foldl, step, onFnFail,
      onSleepDone, EngineState.shouldPauseNow, shouldPause, runM, rejectM,
      resolveM, closeOnSettle, defaultRetryDelay]
  have hfold :
      runTrace ⟨none, none, none⟩ true true
        ([.fnFail e1, .sleepDone, .fnFail e2, .sleepDone, .fnFail e3,
          .sleepDone, .fnFail e4] ++ evs) =
      evs.foldl step
        (runTrace ⟨none, none, none⟩ true true
          [.fnFail e1, .sleepDone, .fnFail e2, .sleepDone, .fnFail e3,
            .sleepDone, .fnFail e4]) := by
    simp [runTrace, List.foldl_append]
  obtain ⟨h1, h2, h3⟩ := steps_resolved_frame evs
    (runTrace ⟨none, none, none⟩ true true
      [.fnFail e1, .sleepDone, .fnFail e2, .sleepDone, .fnFail e3,
        .sleepDone, .fnFail e4]) (by rw [hpre])
  rw [hfold]
  refine ⟨?_, ?_, ?_⟩
  · show List.countP _ _ = 4
    rw [h3, hpre]
    rfl
  · show List.filterMap _ _ = _
    rw [h3, hpre]
    rfl
  · rw [h2, hpre]

/-- C8: with `retry` the literal `false` or the number `0` and a failing unit
of work, exactly one invocation occurs, `onFail` is never called, and the
promise rejects with that single attempt's error — and no later event can
change any of this. -/
theorem retry_false_single_attempt (e : Nat) (evs : List Event) :
    ((runTrace ⟨some (.bool false), none, none⟩ true true
        ([.fnFail e] ++ evs)).fnCalls = 1 ∧
      (runTrace ⟨some (.bool false), none, none⟩ true true
        ([.fnFail e] ++ evs)).onFailEvents = [] ∧
      (runTrace ⟨some (.bool false), none, none⟩ true true
        ([.fnFail e] ++ evs)).settled = some (.failure (.work e))) ∧
    ((runTrace ⟨some (.num 0), none, none⟩ true true
        ([.fnFail e] ++ evs)).fnCalls = 1 ∧
      (runTrace ⟨some (.num 0), none, none⟩ true true
        ([.fnFail e] ++ evs)).onFailEvents = [] ∧
      (runTrace ⟨some (.num 0), none, none⟩ true true
        ([.fnFail e] ++ evs)).settled = some (.failure (.work e))) := by
  have hpre1 :
      runTrace ⟨some (.bool false), none, none⟩ true true [.fnFail e] =
      { config := ⟨some (.bool false), none, none⟩, focused := true,
        online := true, isRetryCancelled := false, failureCount := 0,
        isResolved := true, control := .idle,
        settled := some (.failure (.work e)),
        log := [.fnCall, .onErrorC (.work e)] } := by
    simp [runTrace, initState, canFetch, List.foldl, step, onFnFail, runM,
      rejectM, closeOnSettle, defaultRetryDelay]
  have hpre2 :
      runTrace ⟨some (.num 0), none, none⟩ true true [.fnFail e] =
      { config := ⟨some (.num 0), none, none⟩, focused := true,
        online := true, isRetryCancelled := false, failureCount := 0,
        isResolved := true, control := .idle,
        settled := some (.failure (.work e)),
        log := [.fnCall, .onErrorC (.work e)] } := by
    simp [runTrace, initState, canFetch, List.foldl, step, onFnFail, runM,
      rejectM, closeOnSettle, defaultRetryDelay]
  have hfold1 :
      runTrace ⟨some (.bool false), none, none⟩ true true ([.fnFail e] ++ evs) =
      evs.foldl step
        (runTrace ⟨some (.bool false), none, none⟩ true true [.fnFail e]) := by
    simp [runTrace, List.foldl_append]
  have hfold2 :
      runTrace ⟨some (.num 0), none, none⟩ true true ([.fnFail e] ++ evs) =
      evs.foldl step
        (runTrace ⟨some (.num 0), none, none⟩ true true [.fnFail e]) := by
    simp [runTrace, List.foldl_append]
  obtain ⟨a1, a2, a3⟩ := steps_resolved_frame evs
    (runTrace ⟨some (.bool false), none, none⟩ true true [.fnFail e])
    (by rw [hpre1])
  obtain ⟨b1, b2, b3⟩ := steps_resolved_frame evs
    (runTrace ⟨some (.num 0), none, none⟩ true true [.fnFail e])
    (by rw [hpre2])
  rw [hfold1, hfold2]
  refine ⟨⟨?_, ?_, ?_⟩, ?_, ?_, ?_⟩
  · show List.countP _ _ = 1
    rw [a3, hpre1]
    rfl
  · show List.filterMap _ _ = _
    rw [a3, hpre1]
    rfl
  · rw [a2, hpre1]
  · show List.countP _ _ = 1
    rw [b3, hpre2]
    rfl
  · show List.filterMap _ _ = _
    rw [b3, hpre2]
    rfl
  · rw [b2, hpre2]

/-- C3: `cancel(options)` on an unresolved engine immediately rejects the
promise with a `CancelledError` whose `revert` / `silent` fields come from
`options`, and invokes the abort hook exactly once, after the rejection
callback; on a resolved engine `cancel` changes nothing at all (in particular
`abort` is not invoked). -/
theorem cancel_settles_and_aborts (s : EngineState)
    (opts : Option CancelOptions) :
    (s.isResolved = false →
      (step s (.cancel opts)).isResolved = true ∧
      (step s (.cancel opts)).settled =
        some (.failure (.cancelled (opts.bind CancelOptions.revert)
          (opts.bind CancelOptions.silent))) ∧
      (step s (.cancel opts)).log =
        s.log ++ [.onErrorC (.cancelled (opts.bind CancelOptions.revert)
          (opts.bind CancelOptions.silent)), .abortC]) ∧
    (s.isResolved = true → step s (.cancel opts) = s) := by
  constructor
  · intro h
    simp [step, onCancel, rejectM, cancelledOf, h]
  · intro h
    simp [step, onCancel, h]

/-- Witness for C3: cancelling a fresh engine with `{revert: true, silent:
false}` rejects with those flags and fires `abort` once; cancelling an engine
already settled by success is a strict no-op. -/
theorem cancel_settles_and_aborts_witness :
    (step (initState ⟨none, none, none⟩ true true)
        (.cancel (some ⟨some true, some false⟩))).settled =
      some (.failure (.cancelled (some true) (some false))) ∧
    (step (initState ⟨none, none, none⟩ true true)
        (.cancel (some ⟨some true, some false⟩))).log =
      [.fnCall, .onErrorC (.cancelled (some true) (some false)), .abortC] ∧
    step (runTrace ⟨none, none, none⟩ true true [.fnSucceed 0]) (.cancel none)
      = runTrace ⟨none, none, none⟩ true true [.fnSucceed 0] :=
  ⟨((cancel_settles_and_aborts (initState ⟨none, none, none⟩ true true)
      (some ⟨some true, some false⟩)).1 rfl).2.1,
   ((cancel_settles_and_aborts (initState ⟨none, none, none⟩ true true)
      (some ⟨some true, some false⟩)).1 rfl).2.2,
   (cancel_settles_and_aborts
      (runTrace ⟨none, none, none⟩ true true [.fnSucceed 0]) none).2 rfl⟩

/-- C4 counterexample: under the default `online` mode with the connectivity
gate reporting false, construction enters the startup pause window — the
continuation (`continueFn`) is stored — yet `onPause` has not been invoked,
refuting the claim that `onPause` fires at the moment of entering the pause. -/
theorem pause_entry_counterexample :
    (initState ⟨none, none, none⟩ true false).hasContinueFn = true ∧
    (initState ⟨none, none, none⟩ true false).onPauseCalls = 0 := by
  decide

/-- C4 (amended): whenever the engine enters a pause window it stores a
continuation in `continueFn`, but `onPause` is not invoked at entry; instead
`onPause` fires on each `continue()` call made while the engine is still
unresolved and `shouldPause()` holds (a failed resume attempt). -/
theorem pause_entry_amended (config : RetryerConfig) (focused online : Bool)
    (s : EngineState) (error delay : Nat) :
    (canFetch config.networkMode online = false →
      (initState config focused online).hasContinueFn = true ∧
      (initState config focused online).onPauseCalls = 0) ∧
    (s.control = .sleeping error delay → s.shouldPauseNow = true →
      (step s .sleepDone).hasContinueFn = true ∧
      (step s .sleepDone).log = s.log) ∧
    (s.hasContinueFn = true → s.isResolved = false → s.shouldPauseNow = true →
      (step s .continueCall).log = s.log ++ [.onPauseC] ∧
      (step s .continueCall).hasContinueFn = true) := by
  refine ⟨?_, ?_, ?_⟩
  · intro h
    simp [initState, h, EngineState.hasContinueFn, EngineState.onPauseCalls]
  · intro hc hp
    simp [step, hc, onSleepDone, hp, EngineState.hasContinueFn]
  · intro hk hres hp
    cases hcontrol : s.control <;>
      simp_all [step, onContinueCall, EngineState.hasContinueFn]

/-- Witness for the amended C4 at concrete runs: a fresh engine constructed
offline under default mode holds a continuation with zero `onPause` calls;
`sleepDone` while unfocused enters a pause silently; a speculative
`continue()` on that unfocused paused engine logs exactly one `onPause` and
stays paused. -/
theorem pause_entry_amended_witness :
    ((initState ⟨none, none, none⟩ true false).hasContinueFn = true ∧
      (initState ⟨none, none, none⟩ true false).onPauseCalls = 0) ∧
    ((step (runTrace ⟨none, none, none⟩ true true
        [.fnFail 7, .setFocused false]) .sleepDone).hasContinueFn = true ∧
      (step (runTrace ⟨none, none, none⟩ true true
        [.fnFail 7, .setFocused false]) .sleepDone).log =
      (runTrace ⟨none, none, none⟩ true true
        [.fnFail 7, .setFocused false]).log) ∧
    ((step (initState ⟨none, none, none⟩ false false) .continueCall).log =
      (initState ⟨none, none, none⟩ false false).log ++ [.onPauseC] ∧
      (step (initState ⟨none, none, none⟩ false false)
        .continueCall).hasContinueFn = true) :=
  ⟨(pause_entry_amended ⟨none, none, none⟩ true false
      (initState ⟨none, none, none⟩ true false) 0 0).1 rfl,
   (pause_entry_amended ⟨none, none, none⟩ true true
      (runTrace ⟨none, none, none⟩ true true
        [.fnFail 7, .setFocused false]) 7 1000).2.1 rfl rfl,
   (pause_entry_amended ⟨none, none, none⟩ false false
      (initState ⟨none, none, none⟩ false false) 0 0).2.2 rfl rfl rfl⟩

/-- C5: after a failed attempt, once the delay wait completes (and, when a
pause window was entered, once that pause closes via `continue()`), the engine
re-checks `isRetryCancelled`: if now true it rejects with exactly the original
error of that failed attempt; otherwise it re-invokes the unit of work. -/
theorem retry_cancelled_recheck (s : EngineState) (error delay : Nat) :
    (s.control = .sleeping error delay → s.isResolved = false →
      s.shouldPauseNow = false →
      ((s.isRetryCancelled = true →
        (step s .sleepDone).settled = some (.failure (.work error)) ∧
        (step s .sleepDone).log = s.log ++ [.onErrorC (.work error)]) ∧
      (s.isRetryCancelled = false →
        (step s .sleepDone).control = .runningFn ∧
        (step s .sleepDone).log = s.log ++ [.fnCall]))) ∧
    (s.control = .pausedRetry error → s.isResolved = false →
      s.shouldPauseNow = false →
      ((s.isRetryCancelled = true →
        (step s .continueCall).settled = some (.failure (.work error)) ∧
        (step s .continueCall).log =
          s.log ++ [.onContinueC, .onErrorC (.work error)]) ∧
      (s.isRetryCancelled = false →
        (step s .continueCall).control = .runningFn ∧
        (step s .continueCall).log = s.log ++ [.onContinueC, .fnCall]))) := by
  constructor
  · intro hc hres hp
    constructor <;> intro hrc <;>
      simp [step, hc, onSleepDone, hp, hrc, hres, rejectM, runM, closeOnSettle]
  · intro hc hres hp
    constructor <;> intro hrc <;>
      simp [step, hc, onContinueCall, hp, hres, closePauseRetry, hrc, rejectM,
        runM, closeOnSettle]

/-- Witness for C5 at concrete runs: with retries cancelled during the delay
wait, `sleepDone` rejects with the original error 7; with a pause entered
after the delay and retries cancelled during the pause, the closing
`continue()` rejects with the original error 7; without cancellation the loop
re-invokes the unit of work. -/
theorem retry_cancelled_recheck_witness :
    (step (runTrace ⟨none, none, none⟩ true true [.fnFail 7, .cancelRetry])
        .sleepDone).settled = some (.failure (.work 7)) ∧
    (step (runTrace ⟨none, none, none⟩ true true
        [.fnFail 7, .setFocused false, .sleepDone, .setFocused true,
          .cancelRetry]) .continueCall).settled =
      some (.failure (.work 7)) ∧
    (step (runTrace ⟨none, none, none⟩ true true [.fnFail 7])
        .sleepDone).control = .runningFn :=
  ⟨(((retry_cancelled_recheck
      (runTrace ⟨none, none, none⟩ true true [.fnFail 7, .cancelRetry])
      7 1000).1 rfl rfl rfl).1 rfl).1,
   (((retry_cancelled_recheck
      (runTrace ⟨none, none, none⟩ true true
        [.fnFail 7, .setFocused false, .sleepDone, .setFocused true,
          .cancelRetry])
      7 1000).2 rfl rfl rfl).1 rfl).1,
   (((retry_cancelled_recheck
      (runTrace ⟨none, none, none⟩ true true [.fnFail 7])
      7 1000).1 rfl rfl rfl).2 rfl).1⟩

/-- C6: on construction, if `canFetch` permits work the loop starts at once
(the unit of work is invoked); otherwise the engine enters the startup pause
with no attempt made; and while in the startup pause the only event that can
produce an attempt is a `continue()` call made when the engine is unresolved
and `shouldPause()` no longer holds. -/
theorem startup_policy (config : RetryerConfig) (focused online : Bool)
    (s : EngineState) (e : Event) :
    (canFetch config.networkMode online = true →
      (initState config focused online).control = .runningFn ∧
      (initState config focused online).log = [.fnCall]) ∧
    (canFetch config.networkMode online = false →
      (initState config focused online).control = .pausedStart ∧
      (initState config focused online).log = []) ∧
    (s.control = .pausedStart → (step s e).fnCalls ≠ s.fnCalls →
      e = .continueCall ∧ s.isResolved = false ∧ s.shouldPauseNow = false) := by
  refine ⟨?_, ?_, ?_⟩
  · intro h
    simp [initState, h, runM]
  · intro h
    simp [initState, h]
  · intro hc hne
    cases e <;>
      simp_all [step, onContinueCall, onCancel, closePauseStart, runM, rejectM,
        closeOnSettle, EngineState.fnCalls, List.countP_append] <;>
      split_ifs at hne <;>
      simp_all [List.countP_append]

/-- Witness for C6 at concrete inputs: online construction starts the loop
with one attempt; offline construction under default (`online`) mode pauses
with no attempt; the attempt produced from the startup pause by a `continue()`
call certifies the resume conditions. -/
theorem startup_policy_witness :
    ((initState ⟨none, none, none⟩ true true).control = .runningFn ∧
      (initState ⟨none, none, none⟩ true true).log = [.fnCall]) ∧
    ((initState ⟨none, none, none⟩ true false).control = .pausedStart ∧
      (initState ⟨none, none, none⟩ true false).log = []) ∧
    (Event.continueCall = Event.continueCall ∧
      (initState ⟨none, none, none⟩ true false).isResolved = false ∧
      (initState ⟨none, none, none⟩ true false).shouldPauseNow = false) :=
  ⟨(startup_policy ⟨none, none, none⟩ true true
      (initState ⟨none, none, none⟩ true true) .continueCall).1 rfl,
   (startup_policy ⟨none, none, none⟩ true false
      (initState ⟨none, none, none⟩ true false) .continueCall).2.1 rfl,
   (startup_policy ⟨none, none, none⟩ true false
      (initState ⟨none, none, none⟩ true false) .continueCall).2.2 rfl
      (by decide)⟩

/-- C7: the default retry delay is `min(1000 * 2^failureCount, 30000)` for
every non-negative `failureCount`; it returns 1000 at 0, 16000 at 4, 30000 at
10, is monotonically non-decreasing, and never exceeds 30000. -/
theorem default_delay_policy :
    defaultRetryDelay 0 = 1000 ∧
    defaultRetryDelay 4 = 16000 ∧
    defaultRetryDelay 10 = 30000 ∧
    (∀ n : Nat, defaultRetryDelay n = min (1000 * 2 ^ n) 30000) ∧
    (∀ m n : Nat, m ≤ n → defaultRetryDelay m ≤ defaultRetryDelay n) ∧
    (∀ n : Nat, defaultRetryDelay n ≤ 30000) := by
  refine ⟨by decide, by decide, by decide, fun n => rfl, ?_, ?_⟩
  · intro m n h
    unfold defaultRetryDelay
    exact min_le_min
      (Nat.mul_le_mul_left 1000 (Nat.pow_le_pow_right (by norm_num) h))
      le_rfl
  · intro n
    exact min_le_right _ _

/-- Witness for C7: the monotonicity clause applied at 2 ≤ 5. -/
theorem default_delay_policy_witness :
    defaultRetryDelay 2 ≤ defaultRetryDelay 5 :=
  default_delay_policy.2.2.2.2.1 2 5 (by decide)

/-- C9: `shouldPause` is true exactly when the attention gate reports
unfocused, or the mode is `always` and the connectivity gate reports false;
under any other mode the connectivity gate's value is irrelevant. -/
theorem pause_gate_characterization (mode : Option NetworkMode)
    (focused online online' : Bool) :
    (shouldPause mode focused online = true ↔
      (focused = false ∨ (mode = some .always ∧ online = false))) ∧
    (mode ≠ some .always →
      shouldPause mode focused online = shouldPause mode focused online') := by
  constructor
  · simp [shouldPause]
  · intro h
    simp [shouldPause, h]

/-- Witness for C9: under `online` mode the connectivity gate does not change
`shouldPause`. -/
theorem pause_gate_characterization_witness :
    shouldPause (some .online) true true = shouldPause (some .online) true false :=
  (pause_gate_characterization (some .online) true true false).2 (by decide)

/-- C10: under `always` and `offlineFirst` modes `canFetch` is true regardless
of the connectivity gate — so construction invokes the unit of work at once
even with the gate reporting false — while under `online` (or an undefined
mode, which defaults to `online`) `canFetch` just returns the gate. -/
theorem canFetch_non_online_modes (config : RetryerConfig)
    (mode : Option NetworkMode) (focused b : Bool) :
    ((mode = some .always ∨ mode = some .offlineFirst) →
      canFetch mode b = true) ∧
    ((config.networkMode = some .always ∨
        config.networkMode = some .offlineFirst) →
      (initState config focused false).control = .runningFn ∧
      (initState config focused false).fnCalls = 1) ∧
    canFetch (some .online) b = b ∧
    canFetch none b = b := by
  refine ⟨?_, ?_, by simp [canFetch], by simp [canFetch]⟩
  · rintro (h | h) <;> simp [canFetch, h]
  · rintro (h | h) <;>
      simp [initState, canFetch, h, runM, EngineState.fnCalls]

/-- Witness for C10: `always` mode fetches while offline, and a retryer
constructed offline under `always` mode has already invoked the unit of work
once. -/
theorem canFetch_non_online_modes_witness :
    canFetch (some .always) false = true ∧
    (initState ⟨none, none, some .always⟩ true false).control = .runningFn ∧
    (initState ⟨none, none, some .always⟩ true false).fnCalls = 1 :=
  ⟨(canFetch_non_online_modes ⟨none, none, some .always⟩ (some .always)
      true false).1 (Or.inl rfl),
   (canFetch_non_online_modes ⟨none, none, some .always⟩ (some .always)
      true false).2.1 (Or.inl rfl)⟩
